import Mathlib

/-!
Verification of the car lease mileage tracker (`src/lease_tracker_app.py`).

Shallow embedding of the numeric core of `calculate_and_display` and of the
chart-data construction in `create_chart`.  Calendar dates are modelled as
year/month/day triples with CPython's proleptic-Gregorian ordinal arithmetic
(`datetime.date.toordinal`), since the program computes all day counts via
`datetime` subtraction.  Real-valued arithmetic (Python's float `/`, `*`,
`max`) is modelled over `ℚ`.

The program's `today = datetime.now()` is modelled as an explicit `today`
date parameter.  `lease_start` is constructed at midnight, so the comparison
`lease_start > today` of the source is equivalent to comparing calendar-day
ordinals, and `(today - lease_start).days` equals the difference of the two
day ordinals (the fractional time of day is floored away by `timedelta.days`).

Python raises `ValueError` from `lease_start.replace(year=...)` when the
resulting day is out of range (Feb 29 mapped to a non-leap year), and raises
`ZeroDivisionError` at `total_allowed_miles / lease_duration_days` when the
duration is zero days; both are caught by the `except` block of the source,
so the embedding returns them as explicit error values.
-/

/-- A calendar date, as Python's `datetime` holds it (year, month, day). -/
structure Date where
  year : Nat
  month : Nat
  day : Nat
deriving DecidableEq, Repr, Inhabited

/-- CPython `datetime._is_leap`: `year % 4 == 0 and (year % 100 != 0 or year % 400 == 0)`. -/
def isLeap (y : Nat) : Bool :=
  y % 4 == 0 && (y % 100 != 0 || y % 400 == 0)

/-- CPython `datetime._days_before_year`: days between year 1 Jan 1 and `y` Jan 1,
`(y-1)*365 + (y-1)//4 - (y-1)//100 + (y-1)//400`. -/
def daysBeforeYear (y : Nat) : Nat :=
  (y - 1) * 365 + (y - 1) / 4 - (y - 1) / 100 + (y - 1) / 400

/-- CPython `_DAYS_BEFORE_MONTH` table: days in a non-leap year before month `m`. -/
def daysBeforeMonthTable (m : Nat) : Nat :=
  match m with
  | 1 => 0 | 2 => 31 | 3 => 59 | 4 => 90 | 5 => 120 | 6 => 151
  | 7 => 181 | 8 => 212 | 9 => 243 | 10 => 273 | 11 => 304 | 12 => 334
  | _ => 0

/-- CPython `datetime._days_before_month`: table value plus one in a leap year past February. -/
def daysBeforeMonth (y m : Nat) : Nat :=
  daysBeforeMonthTable m + (if 2 < m ∧ isLeap y = true then 1 else 0)

/-- CPython `datetime._days_in_month`. -/
def daysInMonth (y m : Nat) : Nat :=
  if m = 2 then (if isLeap y then 29 else 28)
  else if m = 4 ∨ m = 6 ∨ m = 9 ∨ m = 11 then 30
  else 31

/-- CPython `datetime.date.toordinal`: proleptic Gregorian ordinal, Jan 1 of year 1 is day 1. -/
def toOrdinal (d : Date) : Nat :=
  daysBeforeYear d.year + daysBeforeMonth d.year d.month + d.day

/-- The validity check `datetime(y, m, d)` performs on construction (year range aside). -/
def Date.Valid (d : Date) : Prop :=
  1 ≤ d.year ∧ 1 ≤ d.month ∧ d.month ≤ 12 ∧ 1 ≤ d.day ∧ d.day ≤ daysInMonth d.year d.month

instance (d : Date) : Decidable d.Valid := by
  unfold Date.Valid; infer_instance

/-- Python `d.replace(year := y)`: keeps month and day, revalidates the day against
the new year's month length, raising `ValueError` (here `none`) when it no longer fits.
For a date that was valid on construction only Feb 29 in a non-leap target year fails. -/
def replaceYear (d : Date) (y : Nat) : Option Date :=
  if d.day ≤ daysInMonth y d.month then some ⟨y, d.month, d.day⟩ else none

/-- The two-valued pace status string of line 60 of the source. -/
inductive Status where
  | OVER
  | UNDER
deriving DecidableEq, Repr, Inhabited

/-- The failure modes of `calculate_and_display`: the explicit validation
`st.error` returns (future lease, not yet started) and the exceptions caught
by the surrounding `try`/`except` (ValueError from `replace`, ZeroDivisionError). -/
inductive CalcError where
  | valueError
  | futureLease
  | notYetStarted
  | zeroDivision
deriving DecidableEq, Repr, Inhabited

/-- Every numeric quantity `calculate_and_display` computes and displays,
lines 49-66 and 128-149 of the source. -/
structure CalcResult where
  total_allowed_miles : ℚ
  lease_duration_days : Int
  days_elapsed : Int
  daily_allowed_miles : ℚ
  projected_miles_today : ℚ
  miles_difference : ℚ
  status : Status
  daily_actual_rate : ℚ
  projected_end_miles : ℚ
  overage_miles : ℚ
  overage_fee : ℚ
  remaining_days : Int
  recommended_daily_rate : ℚ
deriving DecidableEq, Repr, Inhabited

/-- The straight-line projection arithmetic of lines 49-66 and 128-149 of the
source, run after all validation has passed.  `recommended_daily_rate` is
`max_daily_rate` of line 130 when the overage branch of line 128 is taken and
`extra_daily` of line 142 otherwise; both fall back to the literal `0` when
`remaining_days` is not positive (the `if remaining_days > 0 ... else 0`
conditionals of lines 130 and 142). -/
def mkResult (lease_start lease_end today : Date) (duration_years : Nat)
    (annual_miles current_miles extra_price : ℚ) : CalcResult :=
  let total_allowed_miles : ℚ := annual_miles * duration_years
  let lease_duration_days : Int := (toOrdinal lease_end : Int) - (toOrdinal lease_start : Int)
  let days_elapsed : Int := (toOrdinal today : Int) - (toOrdinal lease_start : Int)
  let daily_allowed_miles : ℚ := total_allowed_miles / (lease_duration_days : ℚ)
  let projected_miles_today : ℚ := daily_allowed_miles * (days_elapsed : ℚ)
  let miles_difference : ℚ := current_miles - projected_miles_today
  let status : Status := if miles_difference > 0 then .OVER else .UNDER
  let daily_actual_rate : ℚ := current_miles / (days_elapsed : ℚ)
  let projected_end_miles : ℚ := daily_actual_rate * (lease_duration_days : ℚ)
  let overage_miles : ℚ := max 0 (projected_end_miles - total_allowed_miles)
  let overage_fee : ℚ := overage_miles * extra_price
  let remaining_days : Int := lease_duration_days - days_elapsed
  let recommended_daily_rate : ℚ :=
    if overage_miles > 0 then
      if remaining_days > 0 then (total_allowed_miles - current_miles) / (remaining_days : ℚ)
      else 0
    else
      if remaining_days > 0 then (total_allowed_miles - projected_end_miles) / (remaining_days : ℚ)
      else 0
  { total_allowed_miles, lease_duration_days, days_elapsed, daily_allowed_miles,
    projected_miles_today, miles_difference, status, daily_actual_rate,
    projected_end_miles, overage_miles, overage_fee, remaining_days,
    recommended_daily_rate }

/-- The computation of `calculate_and_display` (lines 38-66 and 128-149),
with `today` explicit.  Control flow follows the source exactly: end-date
computation first (line 40, `ValueError` possible), then the future-start
check (line 44), the not-yet-started check (line 53), and the projection
arithmetic, where a zero-day lease duration raises `ZeroDivisionError` at
the division of line 57. -/
def calculate (lease_start : Date) (duration_years : Nat)
    (annual_miles current_miles extra_price : ℚ) (today : Date) :
    Except CalcError CalcResult :=
  match replaceYear lease_start (lease_start.year + duration_years) with
  | none => .error .valueError
  | some lease_end =>
    if toOrdinal lease_start > toOrdinal today then .error .futureLease
    else if (toOrdinal today : Int) - (toOrdinal lease_start : Int) ≤ 0 then
      .error .notYetStarted
    else if (toOrdinal lease_end : Int) - (toOrdinal lease_start : Int) = 0 then
      .error .zeroDivision
    else
      .ok (mkResult lease_start lease_end today duration_years
            annual_miles current_miles extra_price)

/-- The `allowance` chart series of `create_chart` (lines 160-163): one point
per calendar day from `lease_start` to `lease_end` inclusive
(`pd.date_range(start, end, freq='D')`), each carrying
`(date - lease_start).days * daily_allowed_miles`.  Dates are represented by
their proleptic Gregorian ordinals. -/
def allowanceSeries (lease_start lease_end : Date) (daily_allowed_miles : ℚ) :
    List (Nat × ℚ) :=
  (List.range (toOrdinal lease_end - toOrdinal lease_start + 1)).map
    (fun k => (toOrdinal lease_start + k, (k : ℚ) * daily_allowed_miles))

/-- The `actual` chart series of `create_chart` (lines 166-167): exactly the
two points `(lease_start, 0)` and `(today, current_miles)`. -/
def actualSeries (lease_start today : Date) (current_miles : ℚ) : List (Nat × ℚ) :=
  [(toOrdinal lease_start, 0), (toOrdinal today, current_miles)]

/-- The `projected` chart series of `create_chart` (lines 170-171): exactly
the two points `(today, current_miles)` and `(lease_end, projected_end_miles)`. -/
def projectedSeries (today lease_end : Date) (current_miles projected_end_miles : ℚ) :
    List (Nat × ℚ) :=
  [(toOrdinal today, current_miles), (toOrdinal lease_end, projected_end_miles)]

/-- Start date of the fixed scenario of the spec (§8): 2025-08-04. -/
def scenarioStart : Date := ⟨2025, 8, 4⟩

/-- Reading date of the fixed scenario: 2025-08-10, six days in. -/
def scenarioToday : Date := ⟨2025, 8, 10⟩

/-- The scenario's lease end: 2025-08-04 advanced by 3 calendar years. -/
def scenarioEnd : Date := ⟨2028, 8, 4⟩

/-- The scenario computation: duration 3 years, 10000 miles/year allowance,
reading of 1060 miles, $0.25 per extra mile. -/
def scenarioRun : Except CalcError CalcResult :=
  calculate scenarioStart 3 10000 1060 (1/4) scenarioToday

/-- The scenario's successful result record. -/
def scenarioRes : CalcResult := scenarioRun.toOption.getD default

/-- The scenario moved to the last lease day: the reading taken on the lease
end date 2028-08-04, so that `remaining_days = 0`. -/
def lastDayRun : Except CalcError CalcResult :=
  calculate scenarioStart 3 10000 1060 (1/4) scenarioEnd

/-- The last-day computation's successful result record. -/
def lastDayRes : CalcResult := lastDayRun.toOption.getD default

/-- The fixed scenario re-run with a higher odometer reading of 2000 miles,
all other inputs unchanged. -/
def scenarioRunHigh : Except CalcError CalcResult :=
  calculate scenarioStart 3 10000 2000 (1/4) scenarioToday

/-- The higher-reading computation's successful result record. -/
def scenarioResHigh : CalcResult := scenarioRunHigh.toOption.getD default

/-- Advancing at least one year advances `daysBeforeYear` by at least 336 days
(365 minus the at most 29 leap-rule corrections is far above 336). -/
lemma daysBeforeYear_add_le (y n : Nat) (hy : 1 ≤ y) (hn : 1 ≤ n) :
    daysBeforeYear y + 336 ≤ daysBeforeYear (y + n) := by
  unfold daysBeforeYear
  omega

lemma daysBeforeMonthTable_le (m : Nat) : daysBeforeMonthTable m ≤ 334 := by
  unfold daysBeforeMonthTable
  split <;> omega

lemma daysBeforeMonth_le (y m : Nat) : daysBeforeMonth y m ≤ 335 := by
  have h := daysBeforeMonthTable_le m
  unfold daysBeforeMonth
  split_ifs <;> omega

/-- Keeping month and day fixed, moving the year forward strictly increases
the ordinal: the year gap dwarfs the one-day leap adjustment of the month
offset. -/
lemma toOrdinal_lt_addYears (y n m d : Nat) (hy : 1 ≤ y) (hn : 1 ≤ n) :
    toOrdinal ⟨y, m, d⟩ < toOrdinal ⟨y + n, m, d⟩ := by
  have h1 := daysBeforeYear_add_le y n hy hn
  have h2 := daysBeforeMonth_le y m
  unfold toOrdinal
  dsimp only
  omega

lemma replaceYear_some (d : Date) (y : Nat) (e : Date)
    (h : replaceYear d y = some e) : e = ⟨y, d.month, d.day⟩ := by
  unfold replaceYear at h
  split at h
  · exact (Option.some.inj h).symm
  · simp at h

/-- Unfolding a successful run of `calculate`: the end date is the start date
with the year advanced, the result is the straight-line arithmetic block, and
the two validation guards and the zero-duration guard were passed. -/
lemma calculate_ok (s : Date) (n : Nat) (a c p : ℚ) (t : Date) (r : CalcResult)
    (h : calculate s n a c p t = .ok r) :
    replaceYear s (s.year + n) = some ⟨s.year + n, s.month, s.day⟩ ∧
    r = mkResult s ⟨s.year + n, s.month, s.day⟩ t n a c p ∧
    0 < (toOrdinal t : Int) - (toOrdinal s : Int) ∧
    (toOrdinal (⟨s.year + n, s.month, s.day⟩ : Date) : Int) - (toOrdinal s : Int) ≠ 0 := by
  unfold calculate at h
  split at h
  · cases h
  next e heq =>
    have he := replaceYear_some _ _ _ heq
    subst he
    split at h
    · cases h
    split at h
    · cases h
    split at h
    · cases h
    injection h with h
    subst h
    refine ⟨heq, rfl, by omega, by assumption⟩

/-- Field equations of the arithmetic block, exactly the defining formulas of
the source (lines 49-66 and 128-142), stated through the record fields. -/
lemma mkResult_fields (ls le t : Date) (n : Nat) (a c p : ℚ) :
    (mkResult ls le t n a c p).total_allowed_miles = a * n ∧
    (mkResult ls le t n a c p).lease_duration_days
      = (toOrdinal le : Int) - (toOrdinal ls : Int) ∧
    (mkResult ls le t n a c p).days_elapsed
      = (toOrdinal t : Int) - (toOrdinal ls : Int) ∧
    (mkResult ls le t n a c p).daily_allowed_miles
      = (mkResult ls le t n a c p).total_allowed_miles
          / ((mkResult ls le t n a c p).lease_duration_days : ℚ) ∧
    (mkResult ls le t n a c p).projected_miles_today
      = (mkResult ls le t n a c p).daily_allowed_miles
          * ((mkResult ls le t n a c p).days_elapsed : ℚ) ∧
    (mkResult ls le t n a c p).miles_difference
      = c - (mkResult ls le t n a c p).projected_miles_today ∧
    (mkResult ls le t n a c p).status
      = (if (mkResult ls le t n a c p).miles_difference > 0
          then Status.OVER else Status.UNDER) ∧
    (mkResult ls le t n a c p).daily_actual_rate
      = c / ((mkResult ls le t n a c p).days_elapsed : ℚ) ∧
    (mkResult ls le t n a c p).projected_end_miles
      = (mkResult ls le t n a c p).daily_actual_rate
          * ((mkResult ls le t n a c p).lease_duration_days : ℚ) ∧
    (mkResult ls le t n a c p).overage_miles
      = max 0 ((mkResult ls le t n a c p).projected_end_miles
                - (mkResult ls le t n a c p).total_allowed_miles) ∧
    (mkResult ls le t n a c p).overage_fee
      = (mkResult ls le t n a c p).overage_miles * p ∧
    (mkResult ls le t n a c p).remaining_days
      = (mkResult ls le t n a c p).lease_duration_days
          - (mkResult ls le t n a c p).days_elapsed ∧
    (mkResult ls le t n a c p).recommended_daily_rate
      = (if (mkResult ls le t n a c p).overage_miles > 0 then
          (if (mkResult ls le t n a c p).remaining_days > 0 then
            ((mkResult ls le t n a c p).total_allowed_miles - c)
              / ((mkResult ls le t n a c p).remaining_days : ℚ)
           else 0)
         else
          (if (mkResult ls le t n a c p).remaining_days > 0 then
            ((mkResult ls le t n a c p).total_allowed_miles
              - (mkResult ls le t n a c p).projected_end_miles)
              / ((mkResult ls le t n a c p).remaining_days : ℚ)
           else 0)) :=
  ⟨rfl, rfl, rfl, rfl, rfl, rfl, rfl, rfl, rfl, rfl, rfl, rfl, rfl⟩

/-- A successful run has strictly positive elapsed days (line 53 guard) and,
when the start date's year is at least 1, strictly positive lease duration. -/
lemma calculate_ok_pos (s : Date) (n : Nat) (a c p : ℚ) (t : Date) (r : CalcResult)
    (hy : 1 ≤ s.year) (h : calculate s n a c p t = .ok r) :
    0 < r.lease_duration_days ∧ 0 < r.days_elapsed := by
  obtain ⟨-, hr, helapsed, hdur⟩ := calculate_ok s n a c p t r h
  subst hr
  obtain ⟨-, hd, he, -⟩ := mkResult_fields s ⟨s.year + n, s.month, s.day⟩ t n a c p
  rw [hd, he]
  refine ⟨?_, helapsed⟩
  rcases Nat.eq_zero_or_pos n with hn | hn
  · exfalso
    apply hdur
    subst hn
    have hs : (⟨s.year + 0, s.month, s.day⟩ : Date) = s := rfl
    rw [hs]
    omega
  · have hlt := toOrdinal_lt_addYears s.year n s.month s.day hy hn
    have hs : (⟨s.year, s.month, s.day⟩ : Date) = s := rfl
    rw [hs] at hlt
    omega


/-- C1: for every input that passes validation, the computed projection fields
satisfy exactly the spec's defining equations: `daily_allowed_rate =
total_allowed_miles / total_duration_days`, `expected_miles_to_date =
daily_allowed_rate * days_elapsed`, `daily_actual_rate = current_miles /
days_elapsed`, `projected_end_miles = daily_actual_rate * total_duration_days`,
`overage_miles = max(0, projected_end_miles - total_allowed_miles)`,
`overage_cost = overage_miles * extra_mile_price`, and `total_allowed_miles =
annual_allowance * duration_years` (source names: `daily_allowed_miles`,
`projected_miles_today`, `overage_fee`). -/
theorem C1_defining_equations (s : Date) (n : Nat) (a c p : ℚ) (t : Date)
    (r : CalcResult) (h : calculate s n a c p t = .ok r) :
    r.total_allowed_miles = a * (n : ℚ) ∧
    r.daily_allowed_miles = r.total_allowed_miles / (r.lease_duration_days : ℚ) ∧
    r.projected_miles_today = r.daily_allowed_miles * (r.days_elapsed : ℚ) ∧
    r.daily_actual_rate = c / (r.days_elapsed : ℚ) ∧
    r.projected_end_miles = r.daily_actual_rate * (r.lease_duration_days : ℚ) ∧
    r.overage_miles = max 0 (r.projected_end_miles - r.total_allowed_miles) ∧
    r.overage_fee = r.overage_miles * p := by
  obtain ⟨-, hr, -, -⟩ := calculate_ok s n a c p t r h
  subst hr
  obtain ⟨h1, -, -, h4, h5, -, -, h8, h9, h10, h11, -, -⟩ :=
    mkResult_fields s ⟨s.year + n, s.month, s.day⟩ t n a c p
  exact ⟨h1, h4, h5, h8, h9, h10, h11⟩

/-- Witness for C1 at the spec's fixed scenario (start 2025-08-04, 3 years,
10000 miles/year, reading 1060 at 2025-08-10, $0.25/mile). -/
theorem C1_defining_equations_witness :
    scenarioRes.total_allowed_miles = 10000 * ((3 : Nat) : ℚ) ∧
    scenarioRes.daily_allowed_miles
      = scenarioRes.total_allowed_miles / (scenarioRes.lease_duration_days : ℚ) ∧
    scenarioRes.projected_miles_today
      = scenarioRes.daily_allowed_miles * (scenarioRes.days_elapsed : ℚ) ∧
    scenarioRes.daily_actual_rate = 1060 / (scenarioRes.days_elapsed : ℚ) ∧
    scenarioRes.projected_end_miles
      = scenarioRes.daily_actual_rate * (scenarioRes.lease_duration_days : ℚ) ∧
    scenarioRes.overage_miles
      = max 0 (scenarioRes.projected_end_miles - scenarioRes.total_allowed_miles) ∧
    scenarioRes.overage_fee = scenarioRes.overage_miles * (1 / 4) :=
  C1_defining_equations scenarioStart 3 10000 1060 (1 / 4) scenarioToday scenarioRes rfl

/-- C5: for every validated input, `status = OVER` iff `current_miles >
expected_miles_to_date`, `status = UNDER` otherwise (a zero difference gives
UNDER), and the two statuses are mutually exclusive (line 60 of the source). -/
theorem C5_status_dichotomy (s : Date) (n : Nat) (a c p : ℚ) (t : Date)
    (r : CalcResult) (h : calculate s n a c p t = .ok r) :
    (r.status = Status.OVER ↔ r.projected_miles_today < c) ∧
    (r.status = Status.UNDER ↔ ¬ r.projected_miles_today < c) ∧
    ¬ (r.status = Status.OVER ∧ r.status = Status.UNDER) := by
  obtain ⟨-, hr, -, -⟩ := calculate_ok s n a c p t r h
  subst hr
  obtain ⟨-, -, -, -, -, h6, h7, -, -, -, -, -, -⟩ :=
    mkResult_fields s ⟨s.year + n, s.month, s.day⟩ t n a c p
  have hiff : (mkResult s ⟨s.year + n, s.month, s.day⟩ t n a c p).miles_difference > 0
      ↔ (mkResult s ⟨s.year + n, s.month, s.day⟩ t n a c p).projected_miles_today < c := by
    rw [h6]
    exact sub_pos
  constructor
  · rw [h7]
    constructor
    · intro hov
      by_contra hlt
      rw [if_neg (fun hd => hlt (hiff.mp hd))] at hov
      cases hov
    · intro hlt
      rw [if_pos (hiff.mpr hlt)]
  constructor
  · rw [h7]
    constructor
    · intro hun hlt
      rw [if_pos (hiff.mpr hlt)] at hun
      cases hun
    · intro hlt
      rw [if_neg (fun hd => hlt (hiff.mp hd))]
  · rintro ⟨hov, hun⟩
    rw [hov] at hun
    cases hun

/-- Witness for C5 at the fixed scenario, where the reading is over pace. -/
theorem C5_status_dichotomy_witness :
    (scenarioRes.status = Status.OVER ↔ scenarioRes.projected_miles_today < 1060) ∧
    (scenarioRes.status = Status.UNDER ↔ ¬ scenarioRes.projected_miles_today < 1060) ∧
    ¬ (scenarioRes.status = Status.OVER ∧ scenarioRes.status = Status.UNDER) :=
  C5_status_dichotomy scenarioStart 3 10000 1060 (1 / 4) scenarioToday scenarioRes rfl

/-- C7: for every validated input, `expected_miles_to_date =
daily_allowed_rate * days_elapsed`, and when the reading date is the lease end
(`days_elapsed = total_duration_days`) the expected mileage equals
`total_allowed_miles` exactly in rational arithmetic. -/
theorem C7_expected_miles_consistency (s : Date) (n : Nat) (a c p : ℚ) (t : Date)
    (r : CalcResult) (h : calculate s n a c p t = .ok r) :
    r.projected_miles_today = r.daily_allowed_miles * (r.days_elapsed : ℚ) ∧
    (r.days_elapsed = r.lease_duration_days →
      r.projected_miles_today = r.total_allowed_miles) := by
  obtain ⟨-, hr, -, hdur⟩ := calculate_ok s n a c p t r h
  subst hr
  obtain ⟨-, hd, -, h4, h5, -, -, -, -, -, -, -, -⟩ :=
    mkResult_fields s ⟨s.year + n, s.month, s.day⟩ t n a c p
  refine ⟨h5, fun heq => ?_⟩
  rw [h5, h4, heq]
  have hne : ((mkResult s ⟨s.year + n, s.month, s.day⟩ t n a c p).lease_duration_days : ℚ) ≠ 0 := by
    rw [hd]
    exact_mod_cast fun hz => hdur (by exact_mod_cast hz)
  exact div_mul_cancel₀ _ hne

/-- Witness for C7 at the fixed scenario. -/
theorem C7_expected_miles_consistency_witness :
    scenarioRes.projected_miles_today
      = scenarioRes.daily_allowed_miles * (scenarioRes.days_elapsed : ℚ) ∧
    (scenarioRes.days_elapsed = scenarioRes.lease_duration_days →
      scenarioRes.projected_miles_today = scenarioRes.total_allowed_miles) :=
  C7_expected_miles_consistency scenarioStart 3 10000 1060 (1 / 4) scenarioToday
    scenarioRes rfl

/-- C2 counterexample: in the fixed scenario the code's
`lease_duration_days = (lease_end - lease_start).days` is 1096 (the span
2025-08-04 to 2028-08-04 contains Feb 29, 2028), not the 1095 the claim
states, so the claimed projection values are off as well. -/
theorem C2_scenario_counterexample :
    scenarioRun = .ok scenarioRes ∧
    scenarioRes.days_elapsed = 6 ∧
    scenarioRes.lease_duration_days = 1096 ∧
    scenarioRes.lease_duration_days ≠ 1095 := by
  refine ⟨rfl, rfl, rfl, ?_⟩
  intro hcontra
  have h96 : scenarioRes.lease_duration_days = 1096 := rfl
  rw [h96] at hcontra
  cases hcontra

/-- C2 amended: the fixed scenario (start 2025-08-04, 3 years, 10000
miles/year, 1060 miles at 2025-08-10, $0.25/extra mile) gives
`days_elapsed = 6`, `total_duration_days = 1096`,
`daily_allowed_rate = 30000/1096 = 3750/137 ≈ 27.372`,
`expected_miles_to_date = 22500/137 ≈ 164.23`,
`delta_to_date = 122720/137 ≈ +895.77`, status OVER,
`daily_actual_rate = 530/3 ≈ 176.67`,
`projected_end_miles = 580880/3 ≈ 193626.67`,
`overage_miles = 490880/3 ≈ 163626.67`, and
`overage_cost = 122720/3 ≈ $40906.67`. -/
theorem C2_scenario_amended :
    scenarioRun = .ok scenarioRes ∧
    scenarioRes.days_elapsed = 6 ∧
    scenarioRes.lease_duration_days = 1096 ∧
    scenarioRes.total_allowed_miles = 30000 ∧
    scenarioRes.daily_allowed_miles = 3750 / 137 ∧
    scenarioRes.projected_miles_today = 22500 / 137 ∧
    scenarioRes.miles_difference = 122720 / 137 ∧
    scenarioRes.status = Status.OVER ∧
    scenarioRes.daily_actual_rate = 530 / 3 ∧
    scenarioRes.projected_end_miles = 580880 / 3 ∧
    scenarioRes.overage_miles = 490880 / 3 ∧
    scenarioRes.overage_fee = 122720 / 3 := by
  have h3 : scenarioRes.total_allowed_miles = 10000 * ((3 : Nat) : ℚ) := rfl
  have h4 : scenarioRes.daily_allowed_miles
      = 10000 * ((3 : Nat) : ℚ) / (((1096 : Int)) : ℚ) := rfl
  have h5 : scenarioRes.projected_miles_today
      = 10000 * ((3 : Nat) : ℚ) / (((1096 : Int)) : ℚ) * (((6 : Int)) : ℚ) := rfl
  have h6 : scenarioRes.miles_difference
      = 1060 - 10000 * ((3 : Nat) : ℚ) / (((1096 : Int)) : ℚ) * (((6 : Int)) : ℚ) := rfl
  have h7 : scenarioRes.daily_actual_rate = 1060 / (((6 : Int)) : ℚ) := rfl
  have h8 : scenarioRes.projected_end_miles
      = 1060 / (((6 : Int)) : ℚ) * (((1096 : Int)) : ℚ) := rfl
  have h9 : scenarioRes.overage_miles
      = max 0 (1060 / (((6 : Int)) : ℚ) * (((1096 : Int)) : ℚ) - 10000 * ((3 : Nat) : ℚ)) := rfl
  have hov : scenarioRes.overage_miles = 490880 / 3 := by
    rw [h9, max_eq_right (by push_cast; norm_num)]
    push_cast
    norm_num
  have hfee : scenarioRes.overage_fee = scenarioRes.overage_miles * (1 / 4) := rfl
  have hdiffpos : (0 : ℚ) < scenarioRes.miles_difference := by
    rw [h6]
    push_cast
    norm_num
  have hstatus : scenarioRes.status
      = (if scenarioRes.miles_difference > 0 then Status.OVER else Status.UNDER) := rfl
  refine ⟨rfl, rfl, rfl, ?_, ?_, ?_, ?_, ?_, ?_, ?_, hov, ?_⟩
  · rw [h3]; push_cast; norm_num
  · rw [h4]; push_cast; norm_num
  · rw [h5]; push_cast; norm_num
  · rw [h6]; push_cast; norm_num
  · rw [hstatus, if_pos hdiffpos]
  · rw [h7]; push_cast; norm_num
  · rw [h8]; push_cast; norm_num
  · rw [hfee, hov]; norm_num

/-- C10: a valid-looking input - start date Feb 29, 2024 with a 3-year
duration, so the target year 2027 is not a leap year - makes the end-date
computation `lease_start.replace(year=...)` of line 40 raise `ValueError`
before any validation runs: no result is produced even though the start date
is in the future relative to the reading date (the future-lease check would
otherwise have fired), and nothing clamps the end date to Feb 28. -/
theorem C10_leap_day_value_error :
    Date.Valid ⟨2024, 2, 29⟩ ∧
    isLeap (2024 + 3) = false ∧
    calculate ⟨2024, 2, 29⟩ 3 10000 1060 (1 / 4) ⟨2023, 1, 1⟩ = .error .valueError ∧
    toOrdinal ⟨2023, 1, 1⟩ < toOrdinal ⟨2024, 2, 29⟩ := by
  refine ⟨by decide, by decide, rfl, by decide⟩

/-- C3 counterexample: with the start date one day after the reading date the
whole-day difference is -1, which is ≤ 0, yet the code fails with the
future-lease error (the line 44 check fires first), not the not-yet-started
error - so "fails with NotYetStartedError exactly when the whole-day
difference is ≤ 0" is false as stated. -/
theorem C3_error_order_counterexample :
    calculate ⟨2025, 8, 11⟩ 3 10000 1060 (1 / 4) ⟨2025, 8, 10⟩ = .error .futureLease ∧
    ((toOrdinal (⟨2025, 8, 10⟩ : Date) : Int) - (toOrdinal (⟨2025, 8, 11⟩ : Date) : Int) ≤ 0) ∧
    CalcError.futureLease ≠ CalcError.notYetStarted := by
  refine ⟨rfl, by decide, by decide⟩

/-- C3 amended: when the end-date computation succeeds, validation fails with
the future-lease error exactly when `start_date > as_of`, and with the
not-yet-started error exactly when `start_date ≤ as_of` and the whole-day
difference is ≤ 0, i.e. exactly when the two dates coincide; an error value
means no result record exists. -/
theorem C3_validation_errors (s : Date) (n : Nat) (a c p : ℚ) (t : Date) :
    (calculate s n a c p t = .error .futureLease ↔
      (replaceYear s (s.year + n)).isSome = true ∧ toOrdinal t < toOrdinal s) ∧
    (calculate s n a c p t = .error .notYetStarted ↔
      (replaceYear s (s.year + n)).isSome = true ∧ toOrdinal t = toOrdinal s) := by
  unfold calculate
  cases hrep : replaceYear s (s.year + n) with
  | none => simp
  | some e =>
    simp only [Option.isSome_some, true_and]
    split_ifs with h1 h2 h3 <;> simp_all <;> omega

/-- C4 counterexample: with the reading taken on the lease end date
(`remaining_days = 0`) the computation still succeeds, but
`recommended_daily_rate` is the computed number 0 (the `else 0` fallback of
lines 130/142), not an absent/None sentinel as the claim states. -/
theorem C4_zero_remaining_counterexample :
    lastDayRun = .ok lastDayRes ∧
    lastDayRes.remaining_days = 0 ∧
    lastDayRes.recommended_daily_rate = 0 := by
  have hr : lastDayRes
      = mkResult scenarioStart scenarioEnd scenarioEnd 3 10000 1060 (1 / 4) := rfl
  obtain ⟨-, -, -, -, -, -, -, -, -, -, -, -, hrec⟩ :=
    mkResult_fields scenarioStart scenarioEnd scenarioEnd 3 10000 1060 (1 / 4)
  have h0 : (mkResult scenarioStart scenarioEnd scenarioEnd 3 10000 1060
      (1 / 4)).remaining_days = 0 := rfl
  refine ⟨rfl, by rw [hr, h0], ?_⟩
  rw [hr, hrec, h0]
  norm_num

/-- C4 amended: for every validated input, when `remaining_days > 0` the
recommended daily rate is `(total_allowed_miles - current_miles) /
remaining_days` in the overage case and `(total_allowed_miles -
projected_end_miles) / remaining_days` otherwise; when `remaining_days = 0`
no division is performed and the rate is the fallback constant 0, with no
exception raised. -/
theorem C4_recommended_rate (s : Date) (n : Nat) (a c p : ℚ) (t : Date)
    (r : CalcResult) (h : calculate s n a c p t = .ok r) :
    (0 < r.remaining_days → 0 < r.overage_miles →
      r.recommended_daily_rate = (r.total_allowed_miles - c) / (r.remaining_days : ℚ)) ∧
    (0 < r.remaining_days → ¬ 0 < r.overage_miles →
      r.recommended_daily_rate
        = (r.total_allowed_miles - r.projected_end_miles) / (r.remaining_days : ℚ)) ∧
    (r.remaining_days = 0 → r.recommended_daily_rate = 0) := by
  obtain ⟨-, hr, -, -⟩ := calculate_ok s n a c p t r h
  subst hr
  obtain ⟨-, -, -, -, -, -, -, -, -, -, -, -, hrec⟩ :=
    mkResult_fields s ⟨s.year + n, s.month, s.day⟩ t n a c p
  refine ⟨fun hrem hov => ?_, fun hrem hov => ?_, fun hrem => ?_⟩
  · rw [hrec, if_pos hov, if_pos hrem]
  · rw [hrec, if_neg hov, if_pos hrem]
  · rw [hrec, hrem]
    norm_num

/-- Witness for the amended C4 at the fixed scenario (1090 days remain). -/
theorem C4_recommended_rate_witness :
    (0 < scenarioRes.remaining_days → 0 < scenarioRes.overage_miles →
      scenarioRes.recommended_daily_rate
        = (scenarioRes.total_allowed_miles - 1060) / (scenarioRes.remaining_days : ℚ)) ∧
    (0 < scenarioRes.remaining_days → ¬ 0 < scenarioRes.overage_miles →
      scenarioRes.recommended_daily_rate
        = (scenarioRes.total_allowed_miles - scenarioRes.projected_end_miles)
            / (scenarioRes.remaining_days : ℚ)) ∧
    (scenarioRes.remaining_days = 0 → scenarioRes.recommended_daily_rate = 0) :=
  C4_recommended_rate scenarioStart 3 10000 1060 (1 / 4) scenarioToday scenarioRes rfl

/-- C6: increasing `current_miles` with every other input fixed never
decreases `projected_end_miles`, `overage_miles`, or `overage_cost`
(`overage_fee` in the source), for validated inputs with a valid start year
and non-negative extra-mile price. -/
theorem C6_monotone_in_current_miles (s : Date) (n : Nat) (a c c' p : ℚ) (t : Date)
    (r r' : CalcResult) (hy : 1 ≤ s.year) (hp : 0 ≤ p) (hcc : c ≤ c')
    (h : calculate s n a c p t = .ok r) (h' : calculate s n a c' p t = .ok r') :
    r.projected_end_miles ≤ r'.projected_end_miles ∧
    r.overage_miles ≤ r'.overage_miles ∧
    r.overage_fee ≤ r'.overage_fee := by
  obtain ⟨hdpos, hepos⟩ := calculate_ok_pos s n a c p t r hy h
  obtain ⟨-, hr, -, -⟩ := calculate_ok s n a c p t r h
  obtain ⟨-, hr', -, -⟩ := calculate_ok s n a c' p t r' h'
  subst hr
  subst hr'
  obtain ⟨h1, hd, he, -, -, -, -, h8, h9, h10, h11, -, -⟩ :=
    mkResult_fields s ⟨s.year + n, s.month, s.day⟩ t n a c p
  obtain ⟨h1', -, -, -, -, -, -, h8', h9', h10', h11', -, -⟩ :=
    mkResult_fields s ⟨s.year + n, s.month, s.day⟩ t n a c' p
  rw [hd] at hdpos
  rw [he] at hepos
  have hE : (0 : ℚ) < (((toOrdinal t : Int) - (toOrdinal s : Int) : Int) : ℚ) := by
    exact_mod_cast hepos
  have hD : (0 : ℚ)
      ≤ (((toOrdinal (⟨s.year + n, s.month, s.day⟩ : Date) : Int)
            - (toOrdinal s : Int) : Int) : ℚ) := by
    exact_mod_cast le_of_lt hdpos
  have hm : (mkResult s ⟨s.year + n, s.month, s.day⟩ t n a c p).projected_end_miles
      ≤ (mkResult s ⟨s.year + n, s.month, s.day⟩ t n a c' p).projected_end_miles := by
    rw [h9, h8, h9', h8', he, hd]
    exact mul_le_mul_of_nonneg_right (div_le_div_of_nonneg_right hcc (le_of_lt hE)) hD
  have hov : (mkResult s ⟨s.year + n, s.month, s.day⟩ t n a c p).overage_miles
      ≤ (mkResult s ⟨s.year + n, s.month, s.day⟩ t n a c' p).overage_miles := by
    rw [h10, h10', h1, h1']
    exact max_le_max le_rfl (sub_le_sub_right hm _)
  refine ⟨hm, hov, ?_⟩
  rw [h11, h11']
  exact mul_le_mul_of_nonneg_right hov hp

/-- Witness for C6: the fixed scenario against the same scenario with a
2000-mile reading. -/
theorem C6_monotone_in_current_miles_witness :
    scenarioRes.projected_end_miles ≤ scenarioResHigh.projected_end_miles ∧
    scenarioRes.overage_miles ≤ scenarioResHigh.overage_miles ∧
    scenarioRes.overage_fee ≤ scenarioResHigh.overage_fee :=
  C6_monotone_in_current_miles scenarioStart 3 10000 1060 2000 (1 / 4) scenarioToday
    scenarioRes scenarioResHigh (by decide) (by norm_num) (by norm_num) rfl rfl

/-- C8: for every validated input the chart data builder produces an
`allowance` series with exactly one point per day from `lease_start` to
`lease_end`, valued `daily_allowed_rate * days_since_start`; an `actual`
series of exactly the two points `(start, 0)` and `(as_of, current_miles)`;
and a `projected` series of exactly `(as_of, current_miles)` and
`(end, projected_end_miles)`; no other points are generated. -/
theorem C8_chart_series (s : Date) (n : Nat) (a c p : ℚ) (t : Date) (e : Date)
    (r : CalcResult)
    (_he : replaceYear s (s.year + n) = some e)
    (_h : calculate s n a c p t = .ok r) :
    allowanceSeries s e r.daily_allowed_miles
      = (List.range (toOrdinal e - toOrdinal s + 1)).map
          (fun k => (toOrdinal s + k, r.daily_allowed_miles * (k : ℚ))) ∧
    (allowanceSeries s e r.daily_allowed_miles).length
      = toOrdinal e - toOrdinal s + 1 ∧
    actualSeries s t c = [(toOrdinal s, 0), (toOrdinal t, c)] ∧
    projectedSeries t e c r.projected_end_miles
      = [(toOrdinal t, c), (toOrdinal e, r.projected_end_miles)] := by
  refine ⟨?_, by simp [allowanceSeries], rfl, rfl⟩
  unfold allowanceSeries
  apply List.map_congr_left
  intro k hk
  exact congrArg (Prod.mk _) (mul_comm _ _)

/-- Witness for C8 at the fixed scenario. -/
theorem C8_chart_series_witness :
    allowanceSeries scenarioStart scenarioEnd scenarioRes.daily_allowed_miles
      = (List.range (toOrdinal scenarioEnd - toOrdinal scenarioStart + 1)).map
          (fun k => (toOrdinal scenarioStart + k,
            scenarioRes.daily_allowed_miles * (k : ℚ))) ∧
    (allowanceSeries scenarioStart scenarioEnd scenarioRes.daily_allowed_miles).length
      = toOrdinal scenarioEnd - toOrdinal scenarioStart + 1 ∧
    actualSeries scenarioStart scenarioToday 1060
      = [(toOrdinal scenarioStart, 0), (toOrdinal scenarioToday, 1060)] ∧
    projectedSeries scenarioToday scenarioEnd 1060 scenarioRes.projected_end_miles
      = [(toOrdinal scenarioToday, 1060),
         (toOrdinal scenarioEnd, scenarioRes.projected_end_miles)] :=
  C8_chart_series scenarioStart 3 10000 1060 (1 / 4) scenarioToday scenarioEnd
    scenarioRes rfl rfl

/-- C9: with `duration_years ≥ 1` and a valid start year the computation is
total: the zero-division error branch is unreachable, and on every successful
run both division sites have strictly positive divisors
(`lease_duration_days > 0`, `days_elapsed > 0`) while the
`remaining_days = 0` case is guarded, yielding the constant 0 instead of a
division. -/
theorem C9_no_division_by_zero (s : Date) (n : Nat) (a c p : ℚ) (t : Date)
    (r : CalcResult) (hn : 1 ≤ n) (hy : 1 ≤ s.year) :
    calculate s n a c p t ≠ .error .zeroDivision ∧
    (calculate s n a c p t = .ok r →
      0 < r.lease_duration_days ∧ 0 < r.days_elapsed ∧
      (r.remaining_days = 0 → r.recommended_daily_rate = 0)) := by
  constructor
  · intro hcontra
    unfold calculate at hcontra
    split at hcontra
    · cases hcontra
    next e heq =>
      have he := replaceYear_some _ _ _ heq
      subst he
      split at hcontra
      · cases hcontra
      split at hcontra
      · cases hcontra
      split at hcontra
      next hzero =>
        have hlt := toOrdinal_lt_addYears s.year n s.month s.day hy hn
        have hs : (⟨s.year, s.month, s.day⟩ : Date) = s := rfl
        rw [hs] at hlt
        omega
      next hzero => cases hcontra
  · intro h
    obtain ⟨hd, he2⟩ := calculate_ok_pos s n a c p t r hy h
    obtain ⟨-, hr, -, -⟩ := calculate_ok s n a c p t r h
    subst hr
    obtain ⟨-, -, -, -, -, -, -, -, -, -, -, -, hrec⟩ :=
      mkResult_fields s ⟨s.year + n, s.month, s.day⟩ t n a c p
    refine ⟨hd, he2, fun hrem => ?_⟩
    rw [hrec, hrem]
    norm_num

/-- Witness for C9 at the fixed scenario. -/
theorem C9_no_division_by_zero_witness :
    calculate scenarioStart 3 10000 1060 (1 / 4) scenarioToday ≠ .error .zeroDivision ∧
    (calculate scenarioStart 3 10000 1060 (1 / 4) scenarioToday = .ok scenarioRes →
      0 < scenarioRes.lease_duration_days ∧ 0 < scenarioRes.days_elapsed ∧
      (scenarioRes.remaining_days = 0 → scenarioRes.recommended_daily_rate = 0)) :=
  C9_no_division_by_zero scenarioStart 3 10000 1060 (1 / 4) scenarioToday scenarioRes
    (by decide) (by decide)
